import Mathlib

/-!
Shallow embedding of the authenticated-request pipeline of the
jamf-api-client-go repository (package classic).

The embedding covers the core identified by the specification:
`NewClient` / `defaultHTTPClient` (construction), `requestToken`
(token acquisition), `checkTokenExpiration` (expiration guard) and
`makeAPIrequest` (request dispatcher and format decoder).

Modelling conventions:
- Go errors are modelled as `Option String` (`none` = nil, `some msg` =
  an error whose `Error()` is `msg`).
- `github.com/pkg/errors.Wrapf(err, fmt, ...)` returns nil when `err` is
  nil, and otherwise an error whose message is the formatted text,
  `": "`, and the cause message.  This is `wrapf` below.
- The HTTP transport (`http.Client.Do`), `io.ReadAll`, the standard
  json/xml decoders, and `time.Parse` are external library calls; each
  is modelled by an oracle describing its outcome on the one input the
  code feeds it.  Decoders are treated as atomic: on success they
  produce the decoded value, on failure they leave the target untouched.
- Time instants are integers (seconds since epoch); `time.Until(t)`
  is `t - now` and 5 minutes is `5 * 60` seconds.
-/

namespace JamfClassic

/-- Bearer token required for client authentication (`JamfToken`): a
token string and an RFC3339 expiration timestamp string. -/
structure JamfToken where
  token : String
  expires : String
  deriving DecidableEq, Repr

/-- The HTTP transport, abstracted to the one attribute the code sets:
the timeout (`http.Client{Timeout: time.Minute}`), in seconds. -/
structure Transport where
  timeoutSeconds : Nat
  deriving DecidableEq, Repr

/-- The Jamf API client (`Client`): credentials, resolved endpoint,
token store and transport. -/
structure Client where
  domain : String
  username : String
  password : String
  endpoint : String
  token : JamfToken
  api : Transport
  deriving DecidableEq, Repr

/-- An outbound HTTP request, abstracted to method, URL and headers
(an association list with `Header.Set` replace semantics). -/
structure HTTPRequest where
  method : String
  url : String
  headers : List (String × String)
  deriving DecidableEq, Repr

/-- `r.Header.Set(k, v)`: replace any existing value for the key with
the single value `v`. -/
def HTTPRequest.setHeader (r : HTTPRequest) (k v : String) : HTTPRequest :=
  { r with headers := r.headers.filter (fun p => p.1 ≠ k) ++ [(k, v)] }

/-- `r.Header.Get(k)`: the value stored for key `k`, if any. -/
def HTTPRequest.getHeader (r : HTTPRequest) (k : String) : Option String :=
  (r.headers.find? (fun p => p.1 = k)).map Prod.snd

instance {ε α : Type} [DecidableEq ε] [DecidableEq α] : DecidableEq (Except ε α) := fun x y =>
  match x, y with
  | .error a, .error b =>
      if h : a = b then isTrue (congrArg Except.error h)
      else isFalse (fun hh => h (Except.error.inj hh))
  | .error _, .ok _ => isFalse (fun hh => Except.noConfusion hh)
  | .ok _, .error _ => isFalse (fun hh => Except.noConfusion hh)
  | .ok a, .ok b =>
      if h : a = b then isTrue (congrArg Except.ok h)
      else isFalse (fun hh => h (Except.ok.inj hh))

/-- Outcome of a `j.api.Do(req)` transport call: either a transport
error (with its message) or a response. -/
inductive DoOutcome (ρ : Type) where
  | failure (msg : String)
  | success (res : ρ)
  deriving DecidableEq, Repr

/-- Response to the token request, with oracles for the external calls
the code makes on it: `io.ReadAll` of the body (used only on non-2xx),
and the json decode of the body into the token store (used only on
2xx).  `status` is `res.Status` (e.g. "500 Internal Server Error"),
`statusCode` is `res.StatusCode`. -/
structure TokenHTTPResponse where
  statusCode : Nat
  status : String
  bodyRead : Except String String
  decodeToken : Except String JamfToken
  deriving DecidableEq, Repr

/-- Response to an API request with result container type `V`: status,
the `Content-Type` header value, and oracles for `io.ReadAll`, the xml
decoder and the json decoder on this body. -/
structure APIHTTPResponse (V : Type) where
  statusCode : Nat
  status : String
  contentType : String
  bodyRead : Except String String
  decodeXML : Except String V
  decodeJSON : Except String V
  deriving DecidableEq, Repr

/-- The ambient clock and RFC3339 parsing behaviour (`time.Now`,
`time.Parse(time.RFC3339, _)`), seconds since epoch. -/
structure TimeModel where
  parseRFC3339 : String → Except String Int
  now : Int

/-- `errors.Wrapf` from github.com/pkg/errors: returns nil when the
wrapped error is nil, otherwise the context message, ": ", cause. -/
def wrapf : Option String → String → Option String
  | none, _ => none
  | some e, msg => some (msg ++ ": " ++ e)

/-- `defaultHTTPClient`: a transport with a one-minute timeout, used
when no custom client is passed to `NewClient`. -/
def defaultHTTPClient : Transport :=
  { timeoutSeconds := 60 }

/-- `NewClient(domain, username, password, client)`: fails when any
credential is empty, otherwise builds the client with endpoint
`domain + "/JSSResource"`, an empty token store (Go zero value), and
the supplied transport or the default one. -/
def newClient (domain username password : String) (client : Option Transport) :
    Except String Client :=
  if domain = "" ∨ username = "" ∨ password = "" then
    .error "you must provide a valid Jamf domain, username, and password"
  else
    .ok { domain := domain
          username := username
          password := password
          endpoint := domain ++ "/JSSResource"
          token := { token := "", expires := "" }
          api := client.getD defaultHTTPClient }

/-- Result of `requestToken`: the returned error and the client state
afterwards (the token store is a field of the client). -/
structure TokenResult where
  error : Option String
  client : Client
  deriving DecidableEq, Repr

/-- `(j *Client) requestToken()`: POST to `{domain}/api/v1/auth/token`;
on transport failure wrap with method and URL; on a status outside
{200, 201} read the body as plain text and fail with it (reporting a
body-read failure distinctly, with the status text); on 200/201 decode
the JSON body into the token store, reporting a decode failure as a
distinct error. -/
def requestToken (j : Client) (outcome : DoOutcome TokenHTTPResponse) : TokenResult :=
  let endpoint := j.domain ++ "/api/v1/auth/token"
  match outcome with
  | .failure msg =>
      { error := wrapf (some msg) ("error making POST request to " ++ endpoint)
        client := j }
  | .success res =>
      if res.statusCode ≠ 200 ∧ res.statusCode ≠ 201 then
        match res.bodyRead with
        | .error e =>
            { error := wrapf (some e)
                ("request error: " ++ res.status ++
                  ". unable to retrieve plain text response: " ++ e)
              client := j }
        | .ok responseData =>
            { error := some ("request error: " ++ responseData)
              client := j }
      else
        match res.decodeToken with
        | .error e =>
            { error := wrapf (some e)
                "response was successful but error occured decoding JSON token response"
              client := j }
        | .ok tok =>
            { error := none
              client := { j with token := tok } }

/-- Result of `checkTokenExpiration`: the returned error, the client
state afterwards, and how many token-acquisition network calls were
made (0 or 1). -/
structure GuardResult where
  error : Option String
  client : Client
  tokenCalls : Nat
  deriving DecidableEq, Repr

/-- `(j *Client) checkTokenExpiration()`: if an expiration timestamp is
stored, parse it as RFC3339 (a parse failure is a hard error naming the
timestamp); if more than 5 minutes remain, return nil.  Otherwise (no
timestamp, or at most 5 minutes remain) request a new token, wrapping
any error. -/
def checkTokenExpiration (tm : TimeModel) (j : Client)
    (outcome : DoOutcome TokenHTTPResponse) : GuardResult :=
  if j.token.expires ≠ "" then
    match tm.parseRFC3339 j.token.expires with
    | .error e =>
        { error := wrapf (some e)
            ("error parsing the bearer token expiration date: " ++ j.token.expires)
          client := j
          tokenCalls := 0 }
    | .ok tokenExpires =>
        if tokenExpires - tm.now > 5 * 60 then
          { error := none, client := j, tokenCalls := 0 }
        else
          let r := requestToken j outcome
          { error := wrapf r.error "error requesting new bearer token"
            client := r.client
            tokenCalls := 1 }
  else
    let r := requestToken j outcome
    { error := wrapf r.error "error requesting new bearer token"
      client := r.client
      tokenCalls := 1 }

/-- The characters before the first ';' (all of them when there is
none): the first component of Go's `strings.Split(ct, ";")`. -/
def takeUntilSemicolon : List Char → List Char
  | [] => []
  | c :: rest => if c = ';' then [] else c :: takeUntilSemicolon rest

/-- The base media type of a `Content-Type` header value:
`strings.Split(ct, ";")[0]` (parameters after the first ';' dropped,
no trimming). -/
def baseMediaType (ct : String) : String :=
  String.mk (takeUntilSemicolon ct.data)

/-- The header decoration applied to every authenticated request before
execution: Accept (JSON at q=1.0, XML at q=0.9), Cache-Control,
Strict-Transport-Security, and Authorization with the bearer token. -/
def decorate (r : HTTPRequest) (tokenStr : String) : HTTPRequest :=
  (((r.setHeader "Accept" "application/json, application/xml;q=0.9").setHeader
      "Cache-Control"
      "no-store, no-cache, must-revalidate, max-age=0, post-check=0, pre-check=0").setHeader
      "Strict-Transport-Security" "max-age=31536000 ; includeSubDomains").setHeader
      "Authorization" ("Bearer " ++ tokenStr)

/-- Result of `makeAPIrequest`: the returned error, the client state,
the result container value afterwards, the decorated request handed to
the transport (`none` when the expiration guard failed, so the request
was never executed), and the number of token-acquisition calls. -/
structure APIResult (V : Type) where
  error : Option String
  client : Client
  container : V
  sentRequest : Option HTTPRequest
  tokenCalls : Nat
  deriving DecidableEq, Repr

/-- `(j *Client) makeAPIrequest(r, v)`: run the expiration guard
(propagating its error without executing the request); decorate the
request headers; execute it; on a status outside {200, 201} fail with
the plain-text body (a body-read failure reported distinctly); on
success dispatch on the base media type: xml decoding for text/xml and
application/xml, json decoding for text/json, application/json and
text/plain, and for any other type `errors.Wrapf(err, ...)` where
`err` is nil — which returns nil. -/
def makeAPIrequest {V : Type} (tm : TimeModel) (j : Client) (r : HTTPRequest) (v : V)
    (tokenOutcome : DoOutcome TokenHTTPResponse)
    (apiOutcome : DoOutcome (APIHTTPResponse V)) : APIResult V :=
  let g := checkTokenExpiration tm j tokenOutcome
  match g.error with
  | some e =>
      { error := wrapf (some e) "error checking for bearer token expiration"
        client := g.client, container := v, sentRequest := none
        tokenCalls := g.tokenCalls }
  | none =>
      let r2 := decorate r g.client.token.token
      match apiOutcome with
      | .failure msg =>
          { error := wrapf (some msg)
              ("error making " ++ r2.method ++ " request to " ++ r2.url)
            client := g.client, container := v, sentRequest := some r2
            tokenCalls := g.tokenCalls }
      | .success res =>
          if res.statusCode ≠ 200 ∧ res.statusCode ≠ 201 then
            match res.bodyRead with
            | .error e =>
                { error := wrapf (some e)
                    ("request error: " ++ res.status ++
                      ". unable to retrieve plain text response: " ++ e)
                  client := g.client, container := v, sentRequest := some r2
                  tokenCalls := g.tokenCalls }
            | .ok responseData =>
                { error := some ("request error: " ++ responseData)
                  client := g.client, container := v, sentRequest := some r2
                  tokenCalls := g.tokenCalls }
          else
            let t := baseMediaType res.contentType
            if t = "text/xml" ∨ t = "application/xml" then
              match res.decodeXML with
              | .error e =>
                  { error := wrapf (some e)
                      ("response was successful but error occured decoding response body of type "
                        ++ t)
                    client := g.client, container := v, sentRequest := some r2
                    tokenCalls := g.tokenCalls }
              | .ok v2 =>
                  { error := none
                    client := g.client, container := v2, sentRequest := some r2
                    tokenCalls := g.tokenCalls }
            else if t = "text/json" ∨ t = "application/json" ∨ t = "text/plain" then
              match res.decodeJSON with
              | .error e =>
                  { error := wrapf (some e)
                      ("response was successful but error occured error decoding response body of type "
                        ++ t)
                    client := g.client, container := v, sentRequest := some r2
                    tokenCalls := g.tokenCalls }
              | .ok v2 =>
                  { error := none
                    client := g.client, container := v2, sentRequest := some r2
                    tokenCalls := g.tokenCalls }
            else
              { error := wrapf none
                  ("response was successful but error occured recieved unexpected response body of type "
                    ++ t)
                client := g.client, container := v, sentRequest := some r2
                tokenCalls := g.tokenCalls }

/-! Header-table lemmas: `Header.Set` followed by `Header.Get`. -/

theorem find?_setEntry_self (l : List (String × String)) (k v : String) :
    (l.filter (fun p => p.1 ≠ k) ++ [(k, v)]).find? (fun p => p.1 = k) = some (k, v) := by
  induction l with
  | nil =>
      simp only [List.filter_nil, List.nil_append]
      exact List.find?_cons_of_pos _ (by simp)
  | cons p l ih =>
      by_cases h : p.1 = k
      · rw [List.filter_cons_of_neg (by simp [h])]
        exact ih
      · rw [List.filter_cons_of_pos (by simp [h]), List.cons_append,
          List.find?_cons_of_neg _ (by simp [h])]
        exact ih

theorem find?_setEntry_ne (l : List (String × String)) (k k2 v : String) (h : k ≠ k2) :
    (l.filter (fun p => p.1 ≠ k2) ++ [(k2, v)]).find? (fun p => p.1 = k) =
      l.find? (fun p => p.1 = k) := by
  induction l with
  | nil =>
      simp only [List.filter_nil, List.nil_append, List.find?_nil]
      exact List.find?_cons_of_neg _ (by simpa using Ne.symm h)
  | cons p l ih =>
      by_cases h2 : p.1 = k2
      · have hk : ¬ p.1 = k := fun hh => h (hh.symm.trans h2)
        rw [List.filter_cons_of_neg (by simp [h2]),
          List.find?_cons_of_neg _ (by simp [hk])]
        exact ih
      · by_cases h3 : p.1 = k
        · rw [List.filter_cons_of_pos (by simp [h2]), List.cons_append,
            List.find?_cons_of_pos _ (by simp [h3]),
            List.find?_cons_of_pos _ (by simp [h3])]
        · rw [List.filter_cons_of_pos (by simp [h2]), List.cons_append,
            List.find?_cons_of_neg _ (by simp [h3]),
            List.find?_cons_of_neg _ (by simp [h3])]
          exact ih

theorem getHeader_setHeader_self (r : HTTPRequest) (k v : String) :
    (r.setHeader k v).getHeader k = some v := by
  unfold HTTPRequest.setHeader HTTPRequest.getHeader
  rw [find?_setEntry_self]
  rfl

theorem getHeader_setHeader_ne (r : HTTPRequest) (k k2 v : String) (h : k ≠ k2) :
    (r.setHeader k2 v).getHeader k = r.getHeader k := by
  unfold HTTPRequest.setHeader HTTPRequest.getHeader
  rw [find?_setEntry_ne _ _ _ _ h]

theorem getHeader_decorate_authorization (r : HTTPRequest) (tokenStr : String) :
    (decorate r tokenStr).getHeader "Authorization" = some ("Bearer " ++ tokenStr) := by
  unfold decorate
  exact getHeader_setHeader_self _ _ _

theorem getHeader_decorate_sts (r : HTTPRequest) (tokenStr : String) :
    (decorate r tokenStr).getHeader "Strict-Transport-Security" =
      some "max-age=31536000 ; includeSubDomains" := by
  unfold decorate
  rw [getHeader_setHeader_ne _ _ _ _ (by decide)]
  exact getHeader_setHeader_self _ _ _

theorem getHeader_decorate_cache (r : HTTPRequest) (tokenStr : String) :
    (decorate r tokenStr).getHeader "Cache-Control" =
      some "no-store, no-cache, must-revalidate, max-age=0, post-check=0, pre-check=0" := by
  unfold decorate
  rw [getHeader_setHeader_ne _ _ _ _ (by decide),
    getHeader_setHeader_ne _ _ _ _ (by decide)]
  exact getHeader_setHeader_self _ _ _

theorem getHeader_decorate_accept (r : HTTPRequest) (tokenStr : String) :
    (decorate r tokenStr).getHeader "Accept" =
      some "application/json, application/xml;q=0.9" := by
  unfold decorate
  rw [getHeader_setHeader_ne _ _ _ _ (by decide),
    getHeader_setHeader_ne _ _ _ _ (by decide),
    getHeader_setHeader_ne _ _ _ _ (by decide)]
  exact getHeader_setHeader_self _ _ _

/-! Substring containment, used to state what an error message does or
does not surface. -/

/-- `leadsWith pat l`: the character list `l` starts with `pat`. -/
def leadsWith : List Char → List Char → Bool
  | [], _ => true
  | _ :: _, [] => false
  | a :: as2, b :: bs => a == b && leadsWith as2 bs

/-- `hasSub pat l`: `pat` occurs contiguously somewhere in `l`. -/
def hasSub (pat : List Char) : List Char → Bool
  | [] => leadsWith pat []
  | c :: rest => leadsWith pat (c :: rest) || hasSub pat rest

/-- `strContains s pat`: `pat` occurs as a substring of `s`. -/
def strContains (s pat : String) : Bool :=
  hasSub pat.data s.data

/-! Concrete fixtures, mirroring the mock data of the repository's
client_test.go: a client against a mock domain, a valid long-lived
token, and mock responses. -/

/-- The caller-supplied result container used by the repository's test
(`MockResponse` with a status field). -/
structure MockResponse where
  status : String
  deriving DecidableEq, Repr

/-- A concrete RFC3339 parse oracle: recognises the one timestamp the
fixtures use and rejects everything else. -/
def mockParse : String → Except String Int := fun s =>
  if s = "2030-01-01T00:00:00Z" then Except.ok 1893456000
  else Except.error ("cannot parse " ++ s ++ " as RFC3339")

/-- A concrete clock: epoch time 0, with `mockParse` for parsing. -/
def mockTime : TimeModel :=
  { parseRFC3339 := mockParse, now := 0 }

/-- A client holding a token valid until 2030 (guard passes without a
network call under `mockTime`). -/
def validClient : Client :=
  { domain := "https://jamf.example.com"
    username := "fake-username"
    password := "mock-password-cool"
    endpoint := "https://jamf.example.com/JSSResource"
    token := { token := "abcdefghijklmnopqrstuvwxyz", expires := "2030-01-01T00:00:00Z" }
    api := { timeoutSeconds := 60 } }

/-- A client with the zero-value token store it has right after
construction. -/
def freshClient : Client :=
  { validClient with token := { token := "", expires := "" } }

/-- A client whose stored expiration timestamp does not parse. -/
def staleClient : Client :=
  { validClient with token := { token := "old", expires := "bad-timestamp" } }

/-- A concrete API request before decoration. -/
def mockReq : HTTPRequest :=
  { method := "GET"
    url := "https://jamf.example.com/JSSResource/mock/test"
    headers := [] }

/-- A successful authentication response delivering a fresh token. -/
def tokenOK : TokenHTTPResponse :=
  { statusCode := 200, status := "200 OK"
    bodyRead := Except.ok ""
    decodeToken := Except.ok { token := "newtok", expires := "2030-01-01T00:00:00Z" } }

/-- A rejected authentication response with a plain-text body. -/
def token500 : TokenHTTPResponse :=
  { statusCode := 500, status := "500 Internal Server Error"
    bodyRead := Except.ok "bad API call to /api/v1/auth/token"
    decodeToken := Except.error "unused" }

/-- A successful API response declared as JSON. -/
def jsonOK : APIHTTPResponse MockResponse :=
  { statusCode := 200, status := "200 OK", contentType := "application/json"
    bodyRead := Except.ok ""
    decodeXML := Except.error "not xml"
    decodeJSON := Except.ok { status := "OK" } }

/-- A successful API response declared as XML with a charset
parameter. -/
def xmlOK : APIHTTPResponse MockResponse :=
  { statusCode := 200, status := "200 OK", contentType := "text/xml; charset=UTF-8"
    bodyRead := Except.ok ""
    decodeXML := Except.ok { status := "OK" }
    decodeJSON := Except.error "not json" }

/-- A successful API response with an unrecognized media type. -/
def htmlOK : APIHTTPResponse MockResponse :=
  { statusCode := 200, status := "200 OK", contentType := "text/html; charset=UTF-8"
    bodyRead := Except.ok "<html></html>"
    decodeXML := Except.error "xml decode failure"
    decodeJSON := Except.error "json decode failure" }

/-- A rejected API response with a plain-text body. -/
def api500 : APIHTTPResponse MockResponse :=
  { statusCode := 500, status := "500 Internal Server Error"
    contentType := "text/plain; charset=utf-8"
    bodyRead := Except.ok "bad API call to /JSSResource/other"
    decodeXML := Except.error "unused"
    decodeJSON := Except.error "unused" }

/-! Claim theorems. -/

/-- C5: for every stored non-empty expiration timestamp that does not
parse as RFC3339, checkTokenExpiration returns a hard error whose
message names the bad timestamp, and it does not attempt token
acquisition (zero acquisition calls, client unchanged). -/
theorem C5_parse_failure_hard_error (tm : TimeModel) (j : Client)
    (outcome : DoOutcome TokenHTTPResponse) (e : String)
    (h1 : j.token.expires ≠ "")
    (h2 : tm.parseRFC3339 j.token.expires = Except.error e) :
    checkTokenExpiration tm j outcome =
      { error := some ("error parsing the bearer token expiration date: " ++
          j.token.expires ++ ": " ++ e)
        client := j
        tokenCalls := 0 } := by
  simp only [checkTokenExpiration]
  rw [if_pos h1]
  simp only [h2]
  rfl

/-- C5 witness: the parse-failure branch at a concrete client whose
stored expiration is the unparseable "bad-timestamp". -/
theorem C5_parse_failure_hard_error_witness :
    checkTokenExpiration mockTime staleClient (DoOutcome.failure "unused") =
      { error := some ("error parsing the bearer token expiration date: " ++
          "bad-timestamp" ++ ": " ++ "cannot parse bad-timestamp as RFC3339")
        client := staleClient
        tokenCalls := 0 } :=
  C5_parse_failure_hard_error mockTime staleClient (DoOutcome.failure "unused")
    "cannot parse bad-timestamp as RFC3339" (by decide) (by decide)

/-- C10: for every requestToken call that fails with a transport error
or an HTTP status outside {200, 201}, the stored token (the whole
client, hence both the token string and the expiration) is unchanged,
and the call indeed returns an error. -/
theorem C10_store_unchanged_on_failure (j : Client) :
    (∀ msg, (requestToken j (DoOutcome.failure msg)).client = j ∧
      (requestToken j (DoOutcome.failure msg)).error.isSome) ∧
    (∀ res, res.statusCode ≠ 200 → res.statusCode ≠ 201 →
      (requestToken j (DoOutcome.success res)).client = j ∧
      (requestToken j (DoOutcome.success res)).error.isSome) := by
  constructor
  · intro msg
    exact ⟨rfl, rfl⟩
  · intro res h1 h2
    simp only [requestToken]
    rw [if_pos ⟨h1, h2⟩]
    cases hb : res.bodyRead with
    | error e => exact ⟨rfl, rfl⟩
    | ok d => exact ⟨rfl, rfl⟩

/-- C10 witness: the non-2xx branch at the concrete 500 authentication
response. -/
theorem C10_store_unchanged_on_failure_witness :
    (requestToken freshClient (DoOutcome.success token500)).client = freshClient ∧
    (requestToken freshClient (DoOutcome.success token500)).error.isSome :=
  (C10_store_unchanged_on_failure freshClient).2 token500 (by decide) (by decide)

/-- C8: for every authentication response with status 200 or 201 whose
JSON body decodes to token T with expiration E, requestToken returns
nil and the store afterwards holds exactly (T, E); a decode failure
after a 200/201 status is reported with the distinct
"decoding JSON token response" message and leaves the store
unchanged. -/
theorem C8_token_decode (j : Client) (res : TokenHTTPResponse)
    (hs : res.statusCode = 200 ∨ res.statusCode = 201) :
    (∀ T E, res.decodeToken = Except.ok { token := T, expires := E } →
      requestToken j (DoOutcome.success res) =
        { error := none
          client := { j with token := { token := T, expires := E } } }) ∧
    (∀ e, res.decodeToken = Except.error e →
      requestToken j (DoOutcome.success res) =
        { error := some
            ("response was successful but error occured decoding JSON token response: " ++ e)
          client := j }) := by
  have hcond : ¬ (res.statusCode ≠ 200 ∧ res.statusCode ≠ 201) := by
    rcases hs with h | h <;> simp [h]
  constructor
  · intro T E hd
    simp only [requestToken]
    rw [if_neg hcond]
    simp only [hd]
  · intro e hd
    simp only [requestToken]
    rw [if_neg hcond]
    simp only [hd]
    rfl

/-- C8 witness: the success branch at a concrete 200 response whose
body decodes to the token "newtok" expiring in 2030. -/
theorem C8_token_decode_witness :
    requestToken freshClient (DoOutcome.success tokenOK) =
      { error := none
        client := { freshClient with
          token := { token := "newtok", expires := "2030-01-01T00:00:00Z" } } } :=
  (C8_token_decode freshClient tokenOK (Or.inl rfl)).1
    "newtok" "2030-01-01T00:00:00Z" rfl

/-- C9: newClient fails with exactly the configuration error when the
domain, username or password is empty (and makes no network call: the
constructor consults no transport oracle at all); with all three
non-empty it succeeds, resolving the endpoint as
domain ++ "/JSSResource", with an empty token store and the supplied
transport, defaulting to the one-minute-timeout transport when none is
given. -/
theorem C9_newClient_construction (domain username password : String)
    (client : Option Transport) :
    ((domain = "" ∨ username = "" ∨ password = "") →
      newClient domain username password client =
        Except.error "you must provide a valid Jamf domain, username, and password") ∧
    (domain ≠ "" → username ≠ "" → password ≠ "" →
      newClient domain username password client =
        Except.ok { domain := domain
                    username := username
                    password := password
                    endpoint := domain ++ "/JSSResource"
                    token := { token := "", expires := "" }
                    api := client.getD defaultHTTPClient } ∧
      defaultHTTPClient.timeoutSeconds = 60) := by
  constructor
  · intro h
    simp only [newClient]
    rw [if_pos h]
  · intro h1 h2 h3
    refine ⟨?_, rfl⟩
    simp only [newClient]
    rw [if_neg (by simp [h1, h2, h3])]

/-- C9 witness: construction succeeds on the test credentials with no
custom transport, yielding the default 60-second-timeout transport and
the JSSResource endpoint; and fails on an empty username. -/
theorem C9_newClient_construction_witness :
    (newClient "https://jamf.example.com" "fake-username" "mock-password-cool" none =
      Except.ok { domain := "https://jamf.example.com"
                  username := "fake-username"
                  password := "mock-password-cool"
                  endpoint := "https://jamf.example.com" ++ "/JSSResource"
                  token := { token := "", expires := "" }
                  api := { timeoutSeconds := 60 } } ∧
      defaultHTTPClient.timeoutSeconds = 60) ∧
    newClient "https://jamf.example.com" "" "mock-password-cool" none =
      Except.error "you must provide a valid Jamf domain, username, and password" :=
  ⟨(C9_newClient_construction "https://jamf.example.com" "fake-username"
      "mock-password-cool" none).2 (by decide) (by decide) (by decide),
    (C9_newClient_construction "https://jamf.example.com" "" "mock-password-cool" none).1
      (Or.inr (Or.inl rfl))⟩

/-- C4: for a stored token whose expiration parses to more than 5
minutes past now, checkTokenExpiration returns nil having made zero
acquisition calls and leaves the client untouched; for a stored token
that is absent (empty expiration) or whose remaining time is at most 5
minutes, it makes exactly one acquisition call and, when that call
succeeds with a decodable 200/201 response, overwrites the store with
the decoded token. -/
theorem C4_expiration_guard (tm : TimeModel) (j : Client)
    (outcome : DoOutcome TokenHTTPResponse) :
    (∀ texp, j.token.expires ≠ "" →
      tm.parseRFC3339 j.token.expires = Except.ok texp →
      texp - tm.now > 5 * 60 →
      checkTokenExpiration tm j outcome =
        { error := none, client := j, tokenCalls := 0 }) ∧
    ((j.token.expires = "" ∨
        ∃ texp, tm.parseRFC3339 j.token.expires = Except.ok texp ∧
          ¬ texp - tm.now > 5 * 60) →
      (checkTokenExpiration tm j outcome).tokenCalls = 1 ∧
      ∀ res tok, outcome = DoOutcome.success res →
        ¬ (res.statusCode ≠ 200 ∧ res.statusCode ≠ 201) →
        res.decodeToken = Except.ok tok →
        (checkTokenExpiration tm j outcome).error = none ∧
        (checkTokenExpiration tm j outcome).client.token = tok) := by
  constructor
  · intro texp h1 h2 h3
    simp only [checkTokenExpiration]
    rw [if_pos h1]
    simp only [h2]
    rw [if_pos h3]
  · intro h
    have hacq : checkTokenExpiration tm j outcome =
        { error := wrapf (requestToken j outcome).error "error requesting new bearer token"
          client := (requestToken j outcome).client
          tokenCalls := 1 } := by
      by_cases he : j.token.expires = ""
      · simp only [checkTokenExpiration]
        rw [if_neg (by simp [he])]
      · rcases h with he2 | ⟨texp, hp, hle⟩
        · exact absurd he2 he
        · simp only [checkTokenExpiration]
          rw [if_pos he]
          simp only [hp]
          rw [if_neg hle]
    refine ⟨by rw [hacq], ?_⟩
    intro res tok hout hst hd
    subst hout
    rw [hacq]
    simp only [requestToken]
    rw [if_neg hst]
    simp only [hd]
    exact ⟨rfl, trivial⟩

/-- C4 witness: under the concrete clock, the valid 2030 token makes
zero calls and returns nil, while the fresh (absent) token makes
exactly one call and ends with the newly decoded token in the
store. -/
theorem C4_expiration_guard_witness :
    checkTokenExpiration mockTime validClient (DoOutcome.failure "no call made") =
      { error := none, client := validClient, tokenCalls := 0 } ∧
    (checkTokenExpiration mockTime freshClient (DoOutcome.success tokenOK)).tokenCalls = 1 ∧
    (checkTokenExpiration mockTime freshClient (DoOutcome.success tokenOK)).error = none ∧
    (checkTokenExpiration mockTime freshClient (DoOutcome.success tokenOK)).client.token =
      { token := "newtok", expires := "2030-01-01T00:00:00Z" } := by
  refine ⟨?_, ?_⟩
  · exact (C4_expiration_guard mockTime validClient (DoOutcome.failure "no call made")).1
      1893456000 (by decide) (by decide) (by decide)
  · have h := (C4_expiration_guard mockTime freshClient (DoOutcome.success tokenOK)).2
      (Or.inl rfl)
    have h2 := h.2 tokenOK { token := "newtok", expires := "2030-01-01T00:00:00Z" }
      rfl (by decide) rfl
    exact ⟨h.1, h2.1, h2.2⟩

/-- C1 (code bug evidence): for a successful response whose base media
type (here "text/html") matches no decoding branch, the source returns
errors.Wrapf(err, "... unexpected response body ...") where err is the
nil error of the successful transport call, and pkg/errors.Wrapf
returns nil on a nil cause — so makeAPIrequest returns nil instead of
the intended "unexpected response body type" error, and the container
is returned undecoded. -/
theorem C1_unexpected_type_silently_succeeds :
    baseMediaType htmlOK.contentType = "text/html" ∧
    htmlOK.statusCode = 200 ∧
    (makeAPIrequest mockTime validClient mockReq ({ status := "initial" } : MockResponse)
        (DoOutcome.failure "no token call made") (DoOutcome.success htmlOK)).error = none ∧
    (makeAPIrequest mockTime validClient mockReq ({ status := "initial" } : MockResponse)
        (DoOutcome.failure "no token call made") (DoOutcome.success htmlOK)).container =
      { status := "initial" } ∧
    wrapf none "response was successful but error occured recieved unexpected response body of type text/html" = none := by
  exact ⟨rfl, rfl, rfl, rfl, rfl⟩

/-- C2 counterexample: at the concrete 500 authentication response
whose body reads as "bad API call to /api/v1/auth/token", the error of
requestToken is exactly "request error: " followed by the body — it
contains neither the response status text "500 Internal Server Error"
nor even the digits "500", so the error does not surface the response
status as the claim states. -/
theorem C2_status_not_surfaced :
    token500.statusCode = 500 ∧
    token500.status = "500 Internal Server Error" ∧
    (requestToken freshClient (DoOutcome.success token500)).error =
      some "request error: bad API call to /api/v1/auth/token" ∧
    strContains "request error: bad API call to /api/v1/auth/token"
      "500 Internal Server Error" = false ∧
    strContains "request error: bad API call to /api/v1/auth/token" "500" = false := by
  exact ⟨rfl, rfl, rfl, rfl, rfl⟩

/-- C2 amended: for every response with HTTP status outside {200, 201},
makeAPIrequest and requestToken fail with an error carrying the body
read as plain text (best-effort); the response status is not included
in that message — it appears only in the distinct secondary-failure
message produced when reading the body itself fails. -/
theorem C2_non2xx_body_errors {V : Type} (tm : TimeModel) (j : Client) (r : HTTPRequest)
    (v : V) (res : TokenHTTPResponse) (res2 : APIHTTPResponse V)
    (tokenOutcome : DoOutcome TokenHTTPResponse)
    (h1 : res.statusCode ≠ 200) (h2 : res.statusCode ≠ 201)
    (h3 : res2.statusCode ≠ 200) (h4 : res2.statusCode ≠ 201)
    (hg : (checkTokenExpiration tm j tokenOutcome).error = none) :
    (requestToken j (DoOutcome.success res)).error =
      (match res.bodyRead with
        | Except.ok d => some ("request error: " ++ d)
        | Except.error e => some ("request error: " ++ res.status ++
            ". unable to retrieve plain text response: " ++ e ++ ": " ++ e)) ∧
    (makeAPIrequest tm j r v tokenOutcome (DoOutcome.success res2)).error =
      (match res2.bodyRead with
        | Except.ok d => some ("request error: " ++ d)
        | Except.error e => some ("request error: " ++ res2.status ++
            ". unable to retrieve plain text response: " ++ e ++ ": " ++ e)) := by
  constructor
  · simp only [requestToken]
    rw [if_pos ⟨h1, h2⟩]
    cases hb : res.bodyRead with
    | error e => rfl
    | ok d => rfl
  · simp only [makeAPIrequest, hg]
    rw [if_pos ⟨h3, h4⟩]
    cases hb : res2.bodyRead with
    | error e => rfl
    | ok d => rfl

/-- C2 witness: the amended statement at the concrete 500 responses
(the body-read-succeeds shape on both paths). -/
theorem C2_non2xx_body_errors_witness :
    (requestToken validClient (DoOutcome.success token500)).error =
      some ("request error: " ++ "bad API call to /api/v1/auth/token") ∧
    (makeAPIrequest mockTime validClient mockReq ({ status := "" } : MockResponse)
        (DoOutcome.failure "unused") (DoOutcome.success api500)).error =
      some ("request error: " ++ "bad API call to /JSSResource/other") :=
  C2_non2xx_body_errors mockTime validClient mockReq { status := "" } token500 api500
    (DoOutcome.failure "unused") (by decide) (by decide) (by decide) (by decide) (by decide)

/-- C3: whenever makeAPIrequest returns a non-nil error — guard
failure, transport failure, non-2xx status or decode failure — the
caller-supplied result container comes back unchanged; it is replaced
only on a fully successful decode. -/
theorem C3_container_unchanged_on_error {V : Type} (tm : TimeModel) (j : Client)
    (r : HTTPRequest) (v : V) (tokenOutcome : DoOutcome TokenHTTPResponse)
    (apiOutcome : DoOutcome (APIHTTPResponse V))
    (h : (makeAPIrequest tm j r v tokenOutcome apiOutcome).error ≠ none) :
    (makeAPIrequest tm j r v tokenOutcome apiOutcome).container = v := by
  revert h
  cases hg : (checkTokenExpiration tm j tokenOutcome).error with
  | some e =>
      simp only [makeAPIrequest, hg]
      intro _
      first | rfl | trivial
  | none =>
      cases apiOutcome with
      | failure msg =>
          simp only [makeAPIrequest, hg]
          intro _
          first | rfl | trivial
      | success res =>
          simp only [makeAPIrequest, hg]
          by_cases hst : res.statusCode ≠ 200 ∧ res.statusCode ≠ 201
          · rw [if_pos hst]
            cases hb : res.bodyRead with
            | error e => intro _; first | rfl | trivial
            | ok d => intro _; first | rfl | trivial
          · rw [if_neg hst]
            by_cases hx : baseMediaType res.contentType = "text/xml" ∨
                baseMediaType res.contentType = "application/xml"
            · rw [if_pos hx]
              cases hd : res.decodeXML with
              | error e => intro _; first | rfl | trivial
              | ok v2 => intro h2; exact absurd rfl h2
            · rw [if_neg hx]
              by_cases hj : baseMediaType res.contentType = "text/json" ∨
                  baseMediaType res.contentType = "application/json" ∨
                  baseMediaType res.contentType = "text/plain"
              · rw [if_pos hj]
                cases hd : res.decodeJSON with
                | error e => intro _; first | rfl | trivial
                | ok v2 => intro h2; exact absurd rfl h2
              · rw [if_neg hj]
                intro _
                first | rfl | trivial

/-- C3 witness: the container is unchanged at the concrete failing run
whose response has status 500. -/
theorem C3_container_unchanged_on_error_witness :
    (makeAPIrequest mockTime validClient mockReq ({ status := "initial" } : MockResponse)
        (DoOutcome.failure "unused") (DoOutcome.success api500)).container =
      { status := "initial" } :=
  C3_container_unchanged_on_error mockTime validClient mockReq { status := "initial" }
    (DoOutcome.failure "unused") (DoOutcome.success api500) (by decide)

/-- C6: for every successful (200/201) response, the decoder
dispatches on the base media type with parameters after ';' stripped:
text/xml and application/xml select the xml decoding strategy, and
text/json, application/json and text/plain select the json decoding
strategy; a decode failure in either branch is reported with the media
type included in the message. -/
theorem C6_format_dispatch {V : Type} (tm : TimeModel) (j : Client) (r : HTTPRequest)
    (v : V) (tokenOutcome : DoOutcome TokenHTTPResponse) (res : APIHTTPResponse V)
    (hg : (checkTokenExpiration tm j tokenOutcome).error = none)
    (hs : res.statusCode = 200 ∨ res.statusCode = 201) :
    ((baseMediaType res.contentType = "text/xml" ∨
        baseMediaType res.contentType = "application/xml") →
      (∀ v2, res.decodeXML = Except.ok v2 →
        (makeAPIrequest tm j r v tokenOutcome (DoOutcome.success res)).error = none ∧
        (makeAPIrequest tm j r v tokenOutcome (DoOutcome.success res)).container = v2) ∧
      (∀ e, res.decodeXML = Except.error e →
        (makeAPIrequest tm j r v tokenOutcome (DoOutcome.success res)).error =
          some ("response was successful but error occured decoding response body of type "
            ++ baseMediaType res.contentType ++ ": " ++ e))) ∧
    ((baseMediaType res.contentType = "text/json" ∨
        baseMediaType res.contentType = "application/json" ∨
        baseMediaType res.contentType = "text/plain") →
      (∀ v2, res.decodeJSON = Except.ok v2 →
        (makeAPIrequest tm j r v tokenOutcome (DoOutcome.success res)).error = none ∧
        (makeAPIrequest tm j r v tokenOutcome (DoOutcome.success res)).container = v2) ∧
      (∀ e, res.decodeJSON = Except.error e →
        (makeAPIrequest tm j r v tokenOutcome (DoOutcome.success res)).error =
          some ("response was successful but error occured error decoding response body of type "
            ++ baseMediaType res.contentType ++ ": " ++ e))) := by
  have hcond : ¬ (res.statusCode ≠ 200 ∧ res.statusCode ≠ 201) := by
    rcases hs with h | h <;> simp [h]
  have hjx : ∀ hx : baseMediaType res.contentType = "text/json" ∨
      baseMediaType res.contentType = "application/json" ∨
      baseMediaType res.contentType = "text/plain",
      ¬ (baseMediaType res.contentType = "text/xml" ∨
        baseMediaType res.contentType = "application/xml") := by
    intro hx hxml
    rcases hx with h | h | h <;> rcases hxml with h2 | h2 <;>
      rw [h] at h2 <;> exact absurd h2 (by decide)
  constructor
  · intro hx
    constructor
    · intro v2 hd
      simp only [makeAPIrequest, hg]
      rw [if_neg hcond, if_pos hx]
      simp only [hd]
      exact ⟨trivial, trivial⟩
    · intro e hd
      simp only [makeAPIrequest, hg]
      rw [if_neg hcond, if_pos hx]
      simp only [hd]
      rfl
  · intro hj
    constructor
    · intro v2 hd
      simp only [makeAPIrequest, hg]
      rw [if_neg hcond, if_neg (hjx hj), if_pos hj]
      simp only [hd]
      exact ⟨trivial, trivial⟩
    · intro e hd
      simp only [makeAPIrequest, hg]
      rw [if_neg hcond, if_neg (hjx hj), if_pos hj]
      simp only [hd]
      rfl

/-- C6 witness: the xml branch fills the container from the xml
decoder at a concrete text/xml response (charset parameter stripped),
and the json branch succeeds at a concrete application/json
response. -/
theorem C6_format_dispatch_witness :
    baseMediaType xmlOK.contentType = "text/xml" ∧
    (makeAPIrequest mockTime validClient mockReq ({ status := "" } : MockResponse)
        (DoOutcome.failure "unused") (DoOutcome.success xmlOK)).error = none ∧
    (makeAPIrequest mockTime validClient mockReq ({ status := "" } : MockResponse)
        (DoOutcome.failure "unused") (DoOutcome.success xmlOK)).container =
      { status := "OK" } ∧
    (makeAPIrequest mockTime validClient mockReq ({ status := "" } : MockResponse)
        (DoOutcome.failure "unused") (DoOutcome.success jsonOK)).container =
      { status := "OK" } := by
  have hx := ((C6_format_dispatch mockTime validClient mockReq
      ({ status := "" } : MockResponse) (DoOutcome.failure "unused") xmlOK
      (by decide) (Or.inl rfl)).1 (Or.inl (by decide))).1 { status := "OK" } rfl
  have hj := ((C6_format_dispatch mockTime validClient mockReq
      ({ status := "" } : MockResponse) (DoOutcome.failure "unused") jsonOK
      (by decide) (Or.inl rfl)).2 (Or.inr (Or.inl (by decide)))).1 { status := "OK" } rfl
  exact ⟨by decide, hx.1, hx.2, hj.2⟩

/-- C7: for every authenticated request that passes the expiration
guard, the request handed to the transport is the original decorated
with the Accept header advertising JSON at quality 1.0 and XML at 0.9,
the cache-prevention Cache-Control directives, the
Strict-Transport-Security hint, and an Authorization header exactly
equal to "Bearer " followed by the stored token current after the
guard ran. -/
theorem C7_request_decoration {V : Type} (tm : TimeModel) (j : Client) (r : HTTPRequest)
    (v : V) (tokenOutcome : DoOutcome TokenHTTPResponse)
    (apiOutcome : DoOutcome (APIHTTPResponse V))
    (hg : (checkTokenExpiration tm j tokenOutcome).error = none) :
    (makeAPIrequest tm j r v tokenOutcome apiOutcome).sentRequest =
      some (decorate r (checkTokenExpiration tm j tokenOutcome).client.token.token) ∧
    ∀ tokenStr,
      (decorate r tokenStr).getHeader "Accept" =
        some "application/json, application/xml;q=0.9" ∧
      (decorate r tokenStr).getHeader "Cache-Control" =
        some "no-store, no-cache, must-revalidate, max-age=0, post-check=0, pre-check=0" ∧
      (decorate r tokenStr).getHeader "Strict-Transport-Security" =
        some "max-age=31536000 ; includeSubDomains" ∧
      (decorate r tokenStr).getHeader "Authorization" = some ("Bearer " ++ tokenStr) := by
  constructor
  · cases apiOutcome with
    | failure msg => simp only [makeAPIrequest, hg]
    | success res =>
        simp only [makeAPIrequest, hg]
        by_cases hst : res.statusCode ≠ 200 ∧ res.statusCode ≠ 201
        · rw [if_pos hst]
          cases hb : res.bodyRead with
          | error e => rfl
          | ok d => rfl
        · rw [if_neg hst]
          by_cases hx : baseMediaType res.contentType = "text/xml" ∨
              baseMediaType res.contentType = "application/xml"
          · rw [if_pos hx]
            cases hd : res.decodeXML with
            | error e => rfl
            | ok v2 => rfl
          · rw [if_neg hx]
            by_cases hj : baseMediaType res.contentType = "text/json" ∨
                baseMediaType res.contentType = "application/json" ∨
                baseMediaType res.contentType = "text/plain"
            · rw [if_pos hj]
              cases hd : res.decodeJSON with
              | error e => rfl
              | ok v2 => rfl
            · rw [if_neg hj]
  · intro tokenStr
    exact ⟨getHeader_decorate_accept r tokenStr, getHeader_decorate_cache r tokenStr,
      getHeader_decorate_sts r tokenStr, getHeader_decorate_authorization r tokenStr⟩

/-- C7 witness: the concrete run with the valid 2030 token sends the
decorated request, whose Authorization header is "Bearer " followed by
the stored token. -/
theorem C7_request_decoration_witness :
    (makeAPIrequest mockTime validClient mockReq ({ status := "" } : MockResponse)
        (DoOutcome.failure "unused") (DoOutcome.success jsonOK)).sentRequest =
      some (decorate mockReq
        (checkTokenExpiration mockTime validClient
          (DoOutcome.failure "unused")).client.token.token) ∧
    (decorate mockReq "abcdefghijklmnopqrstuvwxyz").getHeader "Accept" =
      some "application/json, application/xml;q=0.9" ∧
    (decorate mockReq "abcdefghijklmnopqrstuvwxyz").getHeader "Cache-Control" =
      some "no-store, no-cache, must-revalidate, max-age=0, post-check=0, pre-check=0" ∧
    (decorate mockReq "abcdefghijklmnopqrstuvwxyz").getHeader "Strict-Transport-Security" =
      some "max-age=31536000 ; includeSubDomains" ∧
    (decorate mockReq "abcdefghijklmnopqrstuvwxyz").getHeader "Authorization" =
      some ("Bearer " ++ "abcdefghijklmnopqrstuvwxyz") := by
  have h := C7_request_decoration mockTime validClient mockReq
    ({ status := "" } : MockResponse) (DoOutcome.failure "unused")
    (DoOutcome.success jsonOK) (by decide)
  exact ⟨h.1, h.2 "abcdefghijklmnopqrstuvwxyz"⟩

end JamfClassic
